import Mathlib

/-!
Verification of `waftools/dependencies.py`: a shallow embedding of the
dependency-declaration translator together with proofs of its specified
properties.

Modelling choices, kept faithful to the Python source:

* A check descriptor is a Python dict whose keys `name`, `desc`, `func`,
  `req`, `deps` may be absent; absent keys are `Option.none`, and a
  `check['k']` subscript lookup on an absent key raises `KeyError` —
  embedded as `Except.error k`.  `check.get('req', False)` never raises
  and is embedded as `Option.getD`.
* Python strings are modelled through their character lists; the method
  `check_name.startswith('os-')` is the prefix test on character lists.
* `deps_parser.symbols_list` is an external collaborator (its module is
  not part of this repository fragment), so it is a parameter
  `symbols_list : String → List String` of the embedding.
* Python 3's `map(multicheck_dict, checks)` is a lazy iterator forced in
  order by the `*rules` unpacking at the `ctx.multicheck(*rules)` call
  site; the first `KeyError` raised by an element aborts the whole call
  before any environment write.  This forcing is embedded as `mapExcept`.
* The waf configure context `ctx` is a state record: `ctx.env` holds the
  `known_deps` / `satisfied_deps` attributes, and `ctx.multicheck(*rules)`
  is recorded by appending the argument list to `multicheck_calls`.
  `list(set())` is the empty list.
* The check functions take an abstract context of type `γ` and return an
  abstract result of type `ρ`; the translator only stores them.
-/

/-- A check descriptor: a dict supplied by the caller.  Every field models
a dict key that may be absent (`none`). -/
structure Check (γ ρ : Type) where
  name : Option String
  desc : Option String
  func : Option (γ → String → ρ)
  req : Option Bool
  deps : Option String

/-- An invocation record handed to the external multicheck runner:
the dict built by `multicheck_dict`.  The `after_tests` key is only
present (`some`) when the descriptor had a `deps` key. -/
structure Invocation (γ ρ : Type) where
  id : String
  msg : String
  func : γ → ρ
  mandatory : Bool
  after_tests : Option (List String)

/-- The shared environment object `ctx.env` with the two attributes this
component writes. -/
structure Env where
  known_deps : List String
  satisfied_deps : List String

/-- The waf configure context: the environment, plus a record of the
argument lists passed to the external `ctx.multicheck(*rules)` call. -/
structure ConfCtx (γ ρ : Type) where
  env : Env
  multicheck_calls : List (List (Invocation γ ρ))

/-- Python `s.startswith(pre)`: the characters of `pre` are a prefix of
the characters of `s`. -/
def str_startswith (s pre : String) : Bool :=
  pre.data.isPrefixOf s.data

/-- `valid_symbol(check_name)`: `not check_name.startswith('os-')`. -/
def valid_symbol (check_name : String) : Bool :=
  !(str_startswith check_name "os-")

/-- `curry_id(fn)` closing over the descriptor's name: the returned
closure calls the two-argument check function as `fn(ctx, name)`. -/
def curry_id {γ ρ : Type} (name : String) (fn : γ → String → ρ) : γ → ρ :=
  fun ctx => fn ctx name

/-- `multicheck_dict(check)`: build one invocation record from one
descriptor.  The dict-literal subscripts `check['name']`, `check['desc']`,
`check['func']` are evaluated in literal order and raise `KeyError`
(`Except.error` with the key) when the key is absent;
`check.get('req', False)` defaults to `False`; when `'deps' in check`,
`after_tests` is the filtered symbol list of `check['deps']`. -/
def multicheck_dict {γ ρ : Type} (symbols_list : String → List String)
    (check : Check γ ρ) : Except String (Invocation γ ρ) :=
  match check.name with
  | none => Except.error "name"
  | some name =>
    match check.desc with
    | none => Except.error "desc"
    | some desc =>
      match check.func with
      | none => Except.error "func"
      | some fn =>
        let result : Invocation γ ρ :=
          { id := name
            msg := "Checking for " ++ desc
            func := curry_id name fn
            mandatory := check.req.getD false
            after_tests := none }
        match check.deps with
        | some deps =>
          Except.ok
            { result with
              after_tests := some (List.filter valid_symbol (symbols_list deps)) }
        | none => Except.ok result

/-- Forcing Python 3's lazy `map` over a fallible element transform:
elements are transformed left to right and the first raised error aborts
the whole traversal. -/
def mapExcept {α β ε : Type} (f : α → Except ε β) : List α → Except ε (List β)
  | [] => Except.ok []
  | a :: as =>
    match f a with
    | Except.error e => Except.error e
    | Except.ok b =>
      match mapExcept f as with
      | Except.error e => Except.error e
      | Except.ok bs => Except.ok (b :: bs)

/-- `parse_dependencies(ctx, checks)`: map `multicheck_dict` over the
descriptors (forced by the `*rules` unpacking), hand the invocation list
to `ctx.multicheck`, then overwrite `ctx.env.known_deps` and
`ctx.env.satisfied_deps` with `list(set())`, i.e. fresh empty lists.  A
`KeyError` raised while forcing the iterator propagates before the
multicheck call and before either environment write. -/
def parse_dependencies {γ ρ : Type} (symbols_list : String → List String)
    (ctx : ConfCtx γ ρ) (checks : List (Check γ ρ)) :
    Except String (ConfCtx γ ρ) :=
  match mapExcept (multicheck_dict symbols_list) checks with
  | Except.error e => Except.error e
  | Except.ok rules =>
    Except.ok
      { ctx with
        multicheck_calls := ctx.multicheck_calls ++ [rules]
        env := { known_deps := [], satisfied_deps := [] } }

/-- `dependency_satisfied(ctx, dependency_identifier)`: `return False`. -/
def dependency_satisfied {γ ρ : Type} (ctx : ConfCtx γ ρ)
    (dependency_identifier : String) : Bool :=
  false

/-! ## Concrete example values (used by witnesses) -/

/-- Example external symbol extractor: the expression of the spec's worked
example extracts the symbols `bar` and `os-linux`. -/
def exSymbols : String → List String := fun _ => ["bar", "os-linux"]

/-- The spec's worked-example descriptor. -/
def exCheck : Check Unit Bool :=
  { name := some "foo", desc := some "Foo lib", func := some (fun _ _ => true),
    req := none, deps := some "bar and os-linux" }

/-- The invocation record produced from `exCheck`. -/
def exInv : Invocation Unit Bool :=
  { id := "foo", msg := "Checking for Foo lib", func := fun _ => true,
    mandatory := false, after_tests := some ["bar"] }

/-- A context whose environment holds stale non-empty dependency lists. -/
def exCtx : ConfCtx Unit Bool :=
  { env := { known_deps := ["old"], satisfied_deps := ["stale"] },
    multicheck_calls := [] }

/-- The context state after translating `[exCheck]` starting from `exCtx`. -/
def exCtxOut : ConfCtx Unit Bool :=
  { env := { known_deps := [], satisfied_deps := [] },
    multicheck_calls := [[exInv]] }

/-- The context state after translating the empty list starting from `exCtx`. -/
def exCtxEmptyOut : ConfCtx Unit Bool :=
  { env := { known_deps := [], satisfied_deps := [] },
    multicheck_calls := [[]] }

/-- A descriptor with no `deps` key and an explicit `req` value. -/
def exCheckNoDeps : Check Unit Bool :=
  { name := some "zlib", desc := some "zlib", func := some (fun _ _ => false),
    req := some true, deps := none }

/-- The invocation record produced from `exCheckNoDeps`. -/
def exInvNoDeps : Invocation Unit Bool :=
  { id := "zlib", msg := "Checking for zlib", func := fun _ => false,
    mandatory := true, after_tests := none }

/-- A malformed descriptor: the `name` key is absent. -/
def badCheck : Check Unit Bool :=
  { name := none, desc := some "Bad", func := some (fun _ _ => true),
    req := none, deps := none }

/-! ## Helper lemmas -/

/-- Inversion for a successful `multicheck_dict`: the descriptor must carry
`name`, `desc` and `func`, and the record is determined field by field. -/
theorem multicheck_dict_ok_inversion {γ ρ : Type} (symbols_list : String → List String)
    (check : Check γ ρ) (inv : Invocation γ ρ)
    (h : multicheck_dict symbols_list check = Except.ok inv) :
    ∃ nm d fn, check.name = some nm ∧ check.desc = some d ∧ check.func = some fn ∧
      inv = { id := nm
              msg := "Checking for " ++ d
              func := curry_id nm fn
              mandatory := check.req.getD false
              after_tests :=
                check.deps.map fun dp => List.filter valid_symbol (symbols_list dp) } := by
  obtain ⟨cname, cdesc, cfunc, creq, cdeps⟩ := check
  cases cname with
  | none => exact absurd h (by simp [multicheck_dict])
  | some nm =>
    cases cdesc with
    | none => exact absurd h (by simp [multicheck_dict])
    | some d =>
      cases cfunc with
      | none => exact absurd h (by simp [multicheck_dict])
      | some fn =>
        cases cdeps with
        | none => exact ⟨nm, d, fn, rfl, rfl, rfl, (Except.ok.inj h).symm⟩
        | some dp => exact ⟨nm, d, fn, rfl, rfl, rfl, (Except.ok.inj h).symm⟩

/-- A successful forced map produces as many results as inputs. -/
theorem mapExcept_ok_length {α β ε : Type} (f : α → Except ε β)
    (l : List α) (bs : List β) (h : mapExcept f l = Except.ok bs) :
    bs.length = l.length := by
  induction l generalizing bs with
  | nil =>
    simp only [mapExcept, Except.ok.injEq] at h
    subst h
    rfl
  | cons a as ih =>
    simp only [mapExcept] at h
    split at h
    · exact absurd h (by simp)
    · split at h
      · exact absurd h (by simp)
      · next bs' heq' =>
          injection h with h
          subst h
          simp [ih bs' heq']

/-- A successful forced map is pointwise: position `i` of the output is
the transform of position `i` of the input. -/
theorem mapExcept_ok_getElem {α β ε : Type} (f : α → Except ε β)
    (l : List α) (bs : List β) (h : mapExcept f l = Except.ok bs) (i : Nat) :
    (l[i]?).map f = (bs[i]?).map Except.ok := by
  induction l generalizing bs i with
  | nil =>
    simp only [mapExcept, Except.ok.injEq] at h
    subst h
    simp
  | cons a as ih =>
    simp only [mapExcept] at h
    split at h
    · exact absurd h (by simp)
    · next b heq =>
        split at h
        · exact absurd h (by simp)
        · next bs' heq' =>
            injection h with h
            subst h
            cases i with
            | zero => simp [heq]
            | succ j => simpa using ih bs' heq' j

/-- If the transform raises on some element of the list, forcing the map
raises. -/
theorem mapExcept_error_of_mem {α β ε : Type} (f : α → Except ε β)
    (l : List α) (a : α) (ha : a ∈ l) (e : ε) (he : f a = Except.error e) :
    ∃ e', mapExcept f l = Except.error e' := by
  induction l with
  | nil => cases ha
  | cons b bs ih =>
    rcases List.mem_cons.mp ha with rfl | hmem
    · exact ⟨e, by simp [mapExcept, he]⟩
    · cases hfb : f b with
      | error e'' => exact ⟨e'', by simp [mapExcept, hfb]⟩
      | ok v =>
        obtain ⟨e', h'⟩ := ih hmem
        exact ⟨e', by simp [mapExcept, hfb, h']⟩

/-- Inversion for a successful `parse_dependencies` call: the forced map
succeeded, the rules were handed to `multicheck`, and the environment ends
with both dependency lists empty. -/
theorem parse_dependencies_ok_inversion {γ ρ : Type} (symbols_list : String → List String)
    (ctx ctx' : ConfCtx γ ρ) (checks : List (Check γ ρ))
    (h : parse_dependencies symbols_list ctx checks = Except.ok ctx') :
    ∃ rules, mapExcept (multicheck_dict symbols_list) checks = Except.ok rules ∧
      ctx' = { env := { known_deps := [], satisfied_deps := [] },
               multicheck_calls := ctx.multicheck_calls ++ [rules] } := by
  simp only [parse_dependencies] at h
  split at h
  · exact absurd h (by simp)
  · next rules heq =>
      injection h with h
      exact ⟨rules, heq, h.symm⟩

/-- A descriptor missing `name` or `desc` makes `multicheck_dict` raise a
key-lookup error. -/
theorem multicheck_dict_error_of_missing_key {γ ρ : Type}
    (symbols_list : String → List String) (check : Check γ ρ)
    (hbad : check.name = none ∨ check.desc = none) :
    ∃ e, multicheck_dict symbols_list check = Except.error e := by
  rcases hbad with h | h
  · exact ⟨"name", by simp [multicheck_dict, h]⟩
  · cases hn : check.name with
    | none => exact ⟨"name", by simp [multicheck_dict, hn]⟩
    | some nm => exact ⟨"desc", by simp [multicheck_dict, hn, h]⟩

/-! ## Claim theorems -/

/-- Claim C1: for every input list of check descriptors, `parse_dependencies`
hands the runner an invocation list of the same length as the input, and
the record at each position is the one derived from the descriptor at the
same position, so input order is preserved. -/
theorem parse_dependencies_length_and_pointwise {γ ρ : Type}
    (symbols_list : String → List String) (ctx ctx' : ConfCtx γ ρ)
    (checks : List (Check γ ρ))
    (h : parse_dependencies symbols_list ctx checks = Except.ok ctx') :
    ∃ rules, ctx'.multicheck_calls = ctx.multicheck_calls ++ [rules] ∧
      rules.length = checks.length ∧
      ∀ i : Nat, (checks[i]?).map (multicheck_dict symbols_list) =
        (rules[i]?).map Except.ok := by
  obtain ⟨rules, hm, hctx⟩ := parse_dependencies_ok_inversion symbols_list ctx ctx' checks h
  subst hctx
  exact ⟨rules, rfl, mapExcept_ok_length _ _ _ hm,
    fun i => mapExcept_ok_getElem _ _ _ hm i⟩

/-- Claim C1 witness: translating the one-descriptor list `[exCheck]` from
`exCtx` yields exactly one invocation, derived positionally. -/
theorem parse_dependencies_length_and_pointwise_witness :
    ∃ rules : List (Invocation Unit Bool),
      exCtxOut.multicheck_calls = exCtx.multicheck_calls ++ [rules] ∧
      rules.length = [exCheck].length ∧
      ∀ i : Nat, ([exCheck][i]?).map (multicheck_dict exSymbols) =
        (rules[i]?).map Except.ok :=
  parse_dependencies_length_and_pointwise exSymbols exCtx exCtxOut [exCheck] rfl

/-- Claim C2: for every descriptor with a `deps` key, the invocation's
`after_tests` entry is present, contains no symbol starting with `os-`,
contains every extracted symbol not starting with `os-`, and lists its
entries in the extractor's order (it is a sublist of the extractor's
output). -/
theorem multicheck_dict_after_tests_filtered {γ ρ : Type}
    (symbols_list : String → List String) (check : Check γ ρ)
    (inv : Invocation γ ρ) (d : String)
    (hdeps : check.deps = some d)
    (h : multicheck_dict symbols_list check = Except.ok inv) :
    ∃ ts, inv.after_tests = some ts ∧
      (∀ x ∈ ts, str_startswith x "os-" = false) ∧
      (∀ x ∈ symbols_list d, str_startswith x "os-" = false → x ∈ ts) ∧
      List.Sublist ts (symbols_list d) := by
  obtain ⟨nm, d0, fn, hn, hd0, hf, hinv⟩ :=
    multicheck_dict_ok_inversion symbols_list check inv h
  subst hinv
  refine ⟨List.filter valid_symbol (symbols_list d), by simp [hdeps], ?_, ?_, ?_⟩
  · intro x hx
    have hv := (List.mem_filter.mp hx).2
    simpa [valid_symbol] using hv
  · intro x hx hvalid
    exact List.mem_filter.mpr ⟨hx, by simp [valid_symbol, hvalid]⟩
  · exact List.filter_sublist _

/-- Claim C2 witness: from the worked example's extractor output
`["bar", "os-linux"]`, the `after_tests` entry keeps `bar`, drops
`os-linux`, and preserves order. -/
theorem multicheck_dict_after_tests_filtered_witness :
    ∃ ts, exInv.after_tests = some ts ∧
      (∀ x ∈ ts, str_startswith x "os-" = false) ∧
      (∀ x ∈ exSymbols "bar and os-linux", str_startswith x "os-" = false → x ∈ ts) ∧
      List.Sublist ts (exSymbols "bar and os-linux") :=
  multicheck_dict_after_tests_filtered exSymbols exCheck exInv "bar and os-linux" rfl rfl

/-- Claim C3: the `func` field of the invocation record is a one-argument
closure satisfying `wrapped(ctx) = original(ctx, name)` for every context,
where `original` is the descriptor's two-argument check function and
`name` the descriptor's name. -/
theorem multicheck_dict_func_curried {γ ρ : Type}
    (symbols_list : String → List String) (check : Check γ ρ)
    (inv : Invocation γ ρ) (nm : String) (fn : γ → String → ρ)
    (hn : check.name = some nm) (hf : check.func = some fn)
    (h : multicheck_dict symbols_list check = Except.ok inv) :
    ∀ c : γ, inv.func c = fn c nm := by
  obtain ⟨nm', d, fn', hn', hd, hf', hinv⟩ :=
    multicheck_dict_ok_inversion symbols_list check inv h
  rw [hn] at hn'
  rw [hf] at hf'
  injection hn' with hn'
  injection hf' with hf'
  subst hn' hf' hinv
  intro c
  rfl

/-- Claim C3 witness: the wrapped function of the worked example, applied
to the unit context, returns what the original returns on that context and
the name `foo`. -/
theorem multicheck_dict_func_curried_witness : exInv.func () = true :=
  multicheck_dict_func_curried exSymbols exCheck exInv "foo"
    (fun _ _ => true) rfl rfl rfl ()

/-- Claim C4: the invocation's `id` equals the descriptor's `name`, and
`mandatory` equals the descriptor's `req` value, defaulting to `false`
when `req` is absent. -/
theorem multicheck_dict_id_and_mandatory {γ ρ : Type}
    (symbols_list : String → List String) (check : Check γ ρ)
    (inv : Invocation γ ρ) (nm : String)
    (hn : check.name = some nm)
    (h : multicheck_dict symbols_list check = Except.ok inv) :
    inv.id = nm ∧ inv.mandatory = check.req.getD false := by
  obtain ⟨nm', d, fn, hn', hd, hf, hinv⟩ :=
    multicheck_dict_ok_inversion symbols_list check inv h
  rw [hn] at hn'
  injection hn' with hn'
  subst hn' hinv
  exact ⟨rfl, rfl⟩

/-- Claim C4 witness: the worked example has `id = "foo"` and, with no
`req` key, `mandatory = false`. -/
theorem multicheck_dict_id_and_mandatory_witness :
    exInv.id = "foo" ∧ exInv.mandatory = false :=
  multicheck_dict_id_and_mandatory exSymbols exCheck exInv "foo" rfl rfl

/-- Claim C5: after a completed `parse_dependencies` call on any non-empty
descriptor list, the environment fields `known_deps` and `satisfied_deps`
are both empty lists, regardless of which checks were processed. -/
theorem parse_dependencies_env_reset_nonempty {γ ρ : Type}
    (symbols_list : String → List String) (ctx ctx' : ConfCtx γ ρ)
    (checks : List (Check γ ρ))
    (h : parse_dependencies symbols_list ctx checks = Except.ok ctx')
    (hne : checks ≠ []) :
    ctx'.env.known_deps = [] ∧ ctx'.env.satisfied_deps = [] := by
  obtain ⟨rules, hm, hctx⟩ := parse_dependencies_ok_inversion symbols_list ctx ctx' checks h
  subst hctx
  exact ⟨rfl, rfl⟩

/-- Claim C5 witness: translating the non-empty list `[exCheck]` from a
context with stale non-empty dependency lists leaves both fields empty. -/
theorem parse_dependencies_env_reset_nonempty_witness :
    exCtxOut.env.known_deps = [] ∧ exCtxOut.env.satisfied_deps = [] :=
  parse_dependencies_env_reset_nonempty exSymbols exCtx exCtxOut [exCheck] rfl
    (by simp)

/-- Claim C6: `dependency_satisfied` returns `false` for every context and
every identifier; it consults no state and never returns `true`. -/
theorem dependency_satisfied_always_false {γ ρ : Type} (ctx : ConfCtx γ ρ)
    (ident : String) : dependency_satisfied ctx ident = false :=
  rfl

/-- Claim C7: a descriptor without a `deps` key yields an invocation with
no `after_tests` entry. -/
theorem multicheck_dict_no_deps_no_after_tests {γ ρ : Type}
    (symbols_list : String → List String) (check : Check γ ρ)
    (inv : Invocation γ ρ)
    (hdeps : check.deps = none)
    (h : multicheck_dict symbols_list check = Except.ok inv) :
    inv.after_tests = none := by
  obtain ⟨nm, d, fn, hn, hd, hf, hinv⟩ :=
    multicheck_dict_ok_inversion symbols_list check inv h
  subst hinv
  simp [hdeps]

/-- Claim C7 witness: the deps-less descriptor `exCheckNoDeps` produces an
invocation without `after_tests`. -/
theorem multicheck_dict_no_deps_no_after_tests_witness :
    exInvNoDeps.after_tests = none :=
  multicheck_dict_no_deps_no_after_tests exSymbols exCheckNoDeps exInvNoDeps rfl rfl

/-- Claim C8: the invocation's `msg` is the fixed prefix string
`"Checking for "` concatenated with the descriptor's `desc`. -/
theorem multicheck_dict_msg_concat {γ ρ : Type}
    (symbols_list : String → List String) (check : Check γ ρ)
    (inv : Invocation γ ρ) (d : String)
    (hd : check.desc = some d)
    (h : multicheck_dict symbols_list check = Except.ok inv) :
    inv.msg = "Checking for " ++ d := by
  obtain ⟨nm, d', fn, hn, hd', hf, hinv⟩ :=
    multicheck_dict_ok_inversion symbols_list check inv h
  rw [hd] at hd'
  injection hd' with hd'
  subst hd' hinv
  rfl

/-- Claim C8 witness: a descriptor with desc `"Foo lib"` yields
msg `"Checking for Foo lib"`. -/
theorem multicheck_dict_msg_concat_witness :
    exInv.msg = "Checking for Foo lib" :=
  multicheck_dict_msg_concat exSymbols exCheck exInv "Foo lib" rfl rfl

/-- Claim C9: `parse_dependencies` handles no exceptions: a descriptor in
the list missing its `name` or `desc` key makes the whole call propagate a
raw key-lookup error to the caller. -/
theorem parse_dependencies_missing_key_propagates {γ ρ : Type}
    (symbols_list : String → List String) (ctx : ConfCtx γ ρ)
    (checks : List (Check γ ρ)) (check : Check γ ρ)
    (hmem : check ∈ checks)
    (hbad : check.name = none ∨ check.desc = none) :
    ∃ e, parse_dependencies symbols_list ctx checks = Except.error e := by
  obtain ⟨e, he⟩ := multicheck_dict_error_of_missing_key symbols_list check hbad
  obtain ⟨e', h'⟩ :=
    mapExcept_error_of_mem (multicheck_dict symbols_list) checks check hmem e he
  exact ⟨e', by simp [parse_dependencies, h']⟩

/-- Claim C9 witness: translating the list containing the name-less
descriptor `badCheck` propagates a key-lookup error. -/
theorem parse_dependencies_missing_key_propagates_witness :
    ∃ e, parse_dependencies exSymbols exCtx [badCheck] = Except.error e :=
  parse_dependencies_missing_key_propagates exSymbols exCtx [badCheck] badCheck
    (List.Mem.head _) (Or.inl rfl)

/-- Claim C10: every completed `parse_dependencies` call overwrites the
environment fields `known_deps` and `satisfied_deps` with fresh empty
lists, discarding whatever values they held before, for every input list
including the empty one. -/
theorem parse_dependencies_overwrites_env {γ ρ : Type}
    (symbols_list : String → List String) (ctx ctx' : ConfCtx γ ρ)
    (checks : List (Check γ ρ))
    (h : parse_dependencies symbols_list ctx checks = Except.ok ctx') :
    ctx'.env.known_deps = [] ∧ ctx'.env.satisfied_deps = [] := by
  obtain ⟨rules, hm, hctx⟩ := parse_dependencies_ok_inversion symbols_list ctx ctx' checks h
  subst hctx
  exact ⟨rfl, rfl⟩

/-- Claim C10 witness: translating the empty list from a context whose
fields held the non-empty values `["old"]` and `["stale"]` leaves both
fields empty. -/
theorem parse_dependencies_overwrites_env_witness :
    exCtxEmptyOut.env.known_deps = [] ∧ exCtxEmptyOut.env.satisfied_deps = [] :=
  parse_dependencies_overwrites_env exSymbols exCtx exCtxEmptyOut [] rfl
